import Mathlib

set_option maxRecDepth 40000

/-!
# Verification of the tidy-prioritize notification dispatch subsystem

Shallow embedding of the outbound-email core of the repository:

* the template renderer (`supabase/functions/send-email-notification/templates/index.ts`),
* the utility helpers of the client package (`src/api/notifications/utils.ts`),
* the edge function `send-email-notification` (`index.ts`: `checkRateLimit`,
  `logEmail`, `sendEmail` and the request handler inside `serve`),
* the client facade (`src/api/notifications/index.ts`: `RATE_LIMITS`, `getStats`).

Modelling conventions:

* Template data bags (`Record<string, any>` in TS, here only the string-valued
  entries matter) are association lists `List (String × String)`; a missing key
  is JavaScript `undefined`.  The JS coercions used by the source are made
  explicit: `jsStr` is string interpolation (`undefined` prints as the literal
  string "undefined"), `jsTruthy` is truthiness of a string-or-undefined value
  (`undefined` and `""` are falsy), `jsOrElse` is `x || default`, `jsOrNull`
  is `x || null`.
* Database state is an explicit list of `AuditRecord`s (rows of `email_logs`);
  timestamps are integers (milliseconds since the epoch, as in
  `Date.getTime()`).  The supabase count query
  `.eq('user_id', u).gte('created_at', t)` is the pure function `countSince`.
* The Resend delivery call is a parameter `ProviderResult` (2xx vs non-2xx),
  the `RESEND_API_KEY` environment variable a parameter `Option String`, and
  the success/failure of the `email_logs` insert a parameter `appendOk`.
  Thrown JS exceptions are `Except String` values.
* Brace characters inside HTML/CSS string literals are written with the
  escapes \x7b and \x7d, and apostrophes as \x27; the character content is
  unchanged.
-/

/-- JS string interpolation `${x}` of a string-or-undefined value:
`undefined` interpolates as the literal text "undefined". -/
def jsStr (o : Option String) : String :=
  match o with
  | some s => s
  | none => "undefined"

/-- JS truthiness of a string-or-undefined value: `undefined` and the empty
string are falsy, every other string is truthy. -/
def jsTruthy (o : Option String) : Bool :=
  match o with
  | some s => !s.isEmpty
  | none => false

/-- JS `x || d` for a string-or-undefined `x` with a string default `d`. -/
def jsOrElse (o : Option String) (d : String) : String :=
  if jsTruthy o then jsStr o else d

/-- JS `x || null` for a string-or-undefined `x` (used by `logEmail` for the
`template` and `error_message` columns): empty strings collapse to null. -/
def jsOrNull (o : Option String) : Option String :=
  match o with
  | some s => if s.isEmpty then none else some s
  | none => none

/-- JS truthiness of a plain string (used for the required `to` / `subject`
fields): only the empty string is falsy. -/
def strTruthy (s : String) : Bool :=
  !s.isEmpty

/-- `isPrefixChars pat s`: the character list `pat` is a prefix of `s`. -/
def isPrefixChars : List Char → List Char → Bool
  | [], _ => true
  | _ :: _, [] => false
  | a :: as, b :: bs => a == b && isPrefixChars as bs

/-- `containsChars pat s`: the character list `pat` occurs contiguously in `s`. -/
def containsChars (pat : List Char) : List Char → Bool
  | [] => isPrefixChars pat []
  | c :: rest => isPrefixChars pat (c :: rest) || containsChars pat rest

/-- `containsStr s pat`: the string `pat` occurs as a substring of `s`. -/
def containsStr (s pat : String) : Bool :=
  containsChars pat.toList s.toList

/-- A template data bag: the string-valued entries of the free-form
`Record<string, any>` sent as `data`.  A key absent from the list is the
JavaScript value `undefined`. -/
abbrev DataBag := List (String × String)

/-- `templates/index.ts`: `interface RenderedTemplate { html: string; text: string }`. -/
structure RenderedTemplate where
  html : String
  text : String
deriving Repr, DecidableEq

/-- `templates/index.ts` `taskReminderTemplate`: destructures
`taskName, dueDate, description, url` from the bag and interpolates them into
the HTML/plain-text pair; `description`, `dueDate` and `url` are guarded by
truthiness checks, `taskName` is interpolated unconditionally. -/
def taskReminderTemplate (data : DataBag) : RenderedTemplate :=
  let taskName := data.lookup "taskName"
  let dueDate := data.lookup "dueDate"
  let description := data.lookup "description"
  let url := data.lookup "url"
  { html :=
      "\n<!DOCTYPE html>\n<html>\n<head>\n  <style>\n    body \x7b font-family: Arial, sans-serif; line-height: 1.6; color: #333; \x7d\n    .container \x7b max-width: 600px; margin: 0 auto; padding: 20px; \x7d\n    .header \x7b background-color: #4F46E5; color: white; padding: 20px; text-align: center; \x7d\n    .content \x7b background-color: #f9fafb; padding: 20px; margin-top: 20px; border-radius: 8px; \x7d\n    .task-name \x7b font-size: 20px; font-weight: bold; margin-bottom: 10px; \x7d\n    .due-date \x7b color: #dc2626; font-weight: bold; \x7d\n    .button \x7b display: inline-block; background-color: #4F46E5; color: white; padding: 12px 24px; text-decoration: none; border-radius: 6px; margin-top: 20px; \x7d\n    .footer \x7b margin-top: 30px; text-align: center; color: #6b7280; font-size: 12px; \x7d\n  </style>\n</head>\n<body>\n  <div class=\"container\">\n    <div class=\"header\">\n      <h1>Task Reminder</h1>\n    </div>\n    <div class=\"content\">\n      <div class=\"task-name\">"
      ++ jsStr taskName ++ "</div>\n      "
      ++ (if jsTruthy description then "<p>" ++ jsStr description ++ "</p>" else "") ++ "\n      "
      ++ (if jsTruthy dueDate then "<p>Due Date: <span class=\"due-date\">" ++ jsStr dueDate ++ "</span></p>" else "") ++ "\n      "
      ++ (if jsTruthy url then "<a href=\"" ++ jsStr url ++ "\" class=\"button\">View Task</a>" else "")
      ++ "\n    </div>\n    <div class=\"footer\">\n      <p>This is an automated reminder from Tidy Prioritize</p>\n    </div>\n  </div>\n</body>\n</html>\n    "
  , text :=
      "\nTask Reminder\n\n" ++ jsStr taskName ++ "\n"
      ++ (if jsTruthy description then "\n" ++ jsStr description ++ "\n" else "") ++ "\n"
      ++ (if jsTruthy dueDate then "Due Date: " ++ jsStr dueDate ++ "\n" else "") ++ "\n"
      ++ (if jsTruthy url then "\nView Task: " ++ jsStr url else "")
      ++ "\n\n---\nThis is an automated reminder from Tidy Prioritize\n    " }

/-- `templates/index.ts` `taskAssignedTemplate`: `assignedBy` and `taskName`
are interpolated unconditionally, `description`, `dueDate` and `url` guarded. -/
def taskAssignedTemplate (data : DataBag) : RenderedTemplate :=
  let taskName := data.lookup "taskName"
  let assignedBy := data.lookup "assignedBy"
  let description := data.lookup "description"
  let dueDate := data.lookup "dueDate"
  let url := data.lookup "url"
  { html :=
      "\n<!DOCTYPE html>\n<html>\n<head>\n  <style>\n    body \x7b font-family: Arial, sans-serif; line-height: 1.6; color: #333; \x7d\n    .container \x7b max-width: 600px; margin: 0 auto; padding: 20px; \x7d\n    .header \x7b background-color: #10b981; color: white; padding: 20px; text-align: center; \x7d\n    .content \x7b background-color: #f9fafb; padding: 20px; margin-top: 20px; border-radius: 8px; \x7d\n    .task-name \x7b font-size: 20px; font-weight: bold; margin-bottom: 10px; \x7d\n    .button \x7b display: inline-block; background-color: #10b981; color: white; padding: 12px 24px; text-decoration: none; border-radius: 6px; margin-top: 20px; \x7d\n    .footer \x7b margin-top: 30px; text-align: center; color: #6b7280; font-size: 12px; \x7d\n  </style>\n</head>\n<body>\n  <div class=\"container\">\n    <div class=\"header\">\n      <h1>New Task Assigned</h1>\n    </div>\n    <div class=\"content\">\n      <p>"
      ++ jsStr assignedBy ++ " has assigned you a new task:</p>\n      <div class=\"task-name\">"
      ++ jsStr taskName ++ "</div>\n      "
      ++ (if jsTruthy description then "<p>" ++ jsStr description ++ "</p>" else "") ++ "\n      "
      ++ (if jsTruthy dueDate then "<p>Due Date: " ++ jsStr dueDate ++ "</p>" else "") ++ "\n      "
      ++ (if jsTruthy url then "<a href=\"" ++ jsStr url ++ "\" class=\"button\">View Task</a>" else "")
      ++ "\n    </div>\n    <div class=\"footer\">\n      <p>Tidy Prioritize - Keep your tasks organized</p>\n    </div>\n  </div>\n</body>\n</html>\n    "
  , text :=
      "\nNew Task Assigned\n\n" ++ jsStr assignedBy ++ " has assigned you a new task:\n\n"
      ++ jsStr taskName ++ "\n"
      ++ (if jsTruthy description then "\n" ++ jsStr description ++ "\n" else "") ++ "\n"
      ++ (if jsTruthy dueDate then "Due Date: " ++ jsStr dueDate ++ "\n" else "") ++ "\n"
      ++ (if jsTruthy url then "\nView Task: " ++ jsStr url else "")
      ++ "\n\n---\nTidy Prioritize - Keep your tasks organized\n    " }

/-- `templates/index.ts` `taskCompletedTemplate`: `taskName` and `completedBy`
are interpolated unconditionally, `completedAt` guarded. -/
def taskCompletedTemplate (data : DataBag) : RenderedTemplate :=
  let taskName := data.lookup "taskName"
  let completedBy := data.lookup "completedBy"
  let completedAt := data.lookup "completedAt"
  { html :=
      "\n<!DOCTYPE html>\n<html>\n<head>\n  <style>\n    body \x7b font-family: Arial, sans-serif; line-height: 1.6; color: #333; \x7d\n    .container \x7b max-width: 600px; margin: 0 auto; padding: 20px; \x7d\n    .header \x7b background-color: #059669; color: white; padding: 20px; text-align: center; \x7d\n    .content \x7b background-color: #f9fafb; padding: 20px; margin-top: 20px; border-radius: 8px; \x7d\n    .task-name \x7b font-size: 20px; font-weight: bold; margin-bottom: 10px; color: #059669; \x7d\n    .footer \x7b margin-top: 30px; text-align: center; color: #6b7280; font-size: 12px; \x7d\n  </style>\n</head>\n<body>\n  <div class=\"container\">\n    <div class=\"header\">\n      <h1>✓ Task Completed</h1>\n    </div>\n    <div class=\"content\">\n      <div class=\"task-name\">"
      ++ jsStr taskName ++ "</div>\n      <p>Completed by: " ++ jsStr completedBy ++ "</p>\n      "
      ++ (if jsTruthy completedAt then "<p>Completed at: " ++ jsStr completedAt ++ "</p>" else "")
      ++ "\n    </div>\n    <div class=\"footer\">\n      <p>Tidy Prioritize - Keep your tasks organized</p>\n    </div>\n  </div>\n</body>\n</html>\n    "
  , text :=
      "\n✓ Task Completed\n\n" ++ jsStr taskName ++ "\n\nCompleted by: " ++ jsStr completedBy ++ "\n"
      ++ (if jsTruthy completedAt then "Completed at: " ++ jsStr completedAt else "")
      ++ "\n\n---\nTidy Prioritize - Keep your tasks organized\n    " }

/-- `templates/index.ts` `welcomeTemplate`: `userName` falls back to "there"
via `||`, `loginUrl` is guarded. -/
def welcomeTemplate (data : DataBag) : RenderedTemplate :=
  let userName := data.lookup "userName"
  let loginUrl := data.lookup "loginUrl"
  { html :=
      "\n<!DOCTYPE html>\n<html>\n<head>\n  <style>\n    body \x7b font-family: Arial, sans-serif; line-height: 1.6; color: #333; \x7d\n    .container \x7b max-width: 600px; margin: 0 auto; padding: 20px; \x7d\n    .header \x7b background-color: #4F46E5; color: white; padding: 30px; text-align: center; \x7d\n    .content \x7b padding: 30px 20px; \x7d\n    .button \x7b display: inline-block; background-color: #4F46E5; color: white; padding: 12px 24px; text-decoration: none; border-radius: 6px; margin-top: 20px; \x7d\n    .footer \x7b margin-top: 30px; text-align: center; color: #6b7280; font-size: 12px; \x7d\n  </style>\n</head>\n<body>\n  <div class=\"container\">\n    <div class=\"header\">\n      <h1>Welcome to Tidy Prioritize!</h1>\n    </div>\n    <div class=\"content\">\n      <p>Hi "
      ++ jsOrElse userName "there" ++ ",</p>\n      <p>Welcome to Tidy Prioritize! We\x27re excited to help you organize and prioritize your tasks effectively.</p>\n      <p>Get started by creating your first task and let our AI help you prioritize what matters most.</p>\n      "
      ++ (if jsTruthy loginUrl then "<a href=\"" ++ jsStr loginUrl ++ "\" class=\"button\">Get Started</a>" else "")
      ++ "\n    </div>\n    <div class=\"footer\">\n      <p>Tidy Prioritize - Keep your tasks organized</p>\n    </div>\n  </div>\n</body>\n</html>\n    "
  , text :=
      "\nWelcome to Tidy Prioritize!\n\nHi " ++ jsOrElse userName "there"
      ++ ",\n\nWelcome to Tidy Prioritize! We\x27re excited to help you organize and prioritize your tasks effectively.\n\nGet started by creating your first task and let our AI help you prioritize what matters most.\n\n"
      ++ (if jsTruthy loginUrl then "Get Started: " ++ jsStr loginUrl ++ "\n" else "")
      ++ "\n\n---\nTidy Prioritize - Keep your tasks organized\n    " }

/-- `templates/index.ts` `passwordResetTemplate`: `resetUrl` is guarded in the
HTML and falls back to "No reset URL provided" in the text, `expiresIn` falls
back to "1 hour" via `||`. -/
def passwordResetTemplate (data : DataBag) : RenderedTemplate :=
  let resetUrl := data.lookup "resetUrl"
  let expiresIn := data.lookup "expiresIn"
  { html :=
      "\n<!DOCTYPE html>\n<html>\n<head>\n  <style>\n    body \x7b font-family: Arial, sans-serif; line-height: 1.6; color: #333; \x7d\n    .container \x7b max-width: 600px; margin: 0 auto; padding: 20px; \x7d\n    .header \x7b background-color: #dc2626; color: white; padding: 20px; text-align: center; \x7d\n    .content \x7b padding: 20px; \x7d\n    .button \x7b display: inline-block; background-color: #dc2626; color: white; padding: 12px 24px; text-decoration: none; border-radius: 6px; margin-top: 20px; \x7d\n    .warning \x7b background-color: #fef2f2; border-left: 4px solid #dc2626; padding: 12px; margin: 20px 0; \x7d\n    .footer \x7b margin-top: 30px; text-align: center; color: #6b7280; font-size: 12px; \x7d\n  </style>\n</head>\n<body>\n  <div class=\"container\">\n    <div class=\"header\">\n      <h1>Password Reset Request</h1>\n    </div>\n    <div class=\"content\">\n      <p>You requested to reset your password. Click the button below to proceed:</p>\n      "
      ++ (if jsTruthy resetUrl then "<a href=\"" ++ jsStr resetUrl ++ "\" class=\"button\">Reset Password</a>" else "")
      ++ "\n      <div class=\"warning\">\n        <strong>Security Notice:</strong> This link will expire in "
      ++ jsOrElse expiresIn "1 hour"
      ++ ". If you didn\x27t request this reset, please ignore this email.\n      </div>\n    </div>\n    <div class=\"footer\">\n      <p>Tidy Prioritize - Keep your tasks organized</p>\n    </div>\n  </div>\n</body>\n</html>\n    "
  , text :=
      "\nPassword Reset Request\n\nYou requested to reset your password. Click the link below to proceed:\n\n"
      ++ jsOrElse resetUrl "No reset URL provided"
      ++ "\n\nSECURITY NOTICE: This link will expire in " ++ jsOrElse expiresIn "1 hour"
      ++ ". If you didn\x27t request this reset, please ignore this email.\n\n---\nTidy Prioritize - Keep your tasks organized\n    " }

/-- The closed set of registered template identifiers (the keys of the
`templates` map in `renderTemplate`). -/
def registeredTemplates : List String :=
  ["task-reminder", "task-assigned", "task-completed", "welcome", "password-reset"]

/-- The name-keyed `templates` map of `renderTemplate`, as a lookup. -/
def templateFor (templateName : String) : Option (DataBag → RenderedTemplate) :=
  if templateName = "task-reminder" then some taskReminderTemplate
  else if templateName = "task-assigned" then some taskAssignedTemplate
  else if templateName = "task-completed" then some taskCompletedTemplate
  else if templateName = "welcome" then some welcomeTemplate
  else if templateName = "password-reset" then some passwordResetTemplate
  else none

/-- `templates/index.ts` `renderTemplate`: looks the name up in the template
map and throws `Template '<name>' not found` when absent. -/
def renderTemplate (templateName : String) (data : DataBag) :
    Except String RenderedTemplate :=
  match templateFor templateName with
  | none => Except.error ("Template \x27" ++ templateName ++ "\x27 not found")
  | some template => Except.ok (template data)

/-- A row of the `email_logs` table (migration `20251021000000_create_email_logs.sql`):
`status` is constrained to 'sent' | 'failed'. -/
inductive EmailStatus
  | sent
  | failed
deriving Repr, DecidableEq

/-- A row of the `email_logs` audit table; `created_at` is the insertion
instant (the column defaults to `NOW()`), in milliseconds. -/
structure AuditRecord where
  user_id : String
  recipient : String
  subject : String
  template : Option String
  status : EmailStatus
  error_message : Option String
  created_at : Int
deriving Repr, DecidableEq

/-- `index.ts` `interface EmailRequest`: the inbound dispatch payload. -/
structure EmailRequest where
  «to» : String
  subject : String
  template : Option String
  data : DataBag
  html : Option String
  text : Option String
deriving Repr

/-- `index.ts` `interface RateLimitConfig`. -/
structure RateLimitConfig where
  maxEmailsPerHour : Nat
  maxEmailsPerDay : Nat
deriving Repr, DecidableEq

/-- `index.ts`: `const rateLimitConfig = { maxEmailsPerHour: 10, maxEmailsPerDay: 50 }`. -/
def rateLimitConfig : RateLimitConfig :=
  { maxEmailsPerHour := 10, maxEmailsPerDay := 50 }

/-- The supabase count query of `checkRateLimit`:
`.eq('user_id', userId).gte('created_at', since)` with `count: 'exact'` —
the number of audit rows of `userId` whose timestamp is ≥ `since`. -/
def countSince (log : List AuditRecord) (userId : String) (since : Int) : Nat :=
  (log.filter (fun r => r.user_id == userId && since ≤ r.created_at)).length

/-- The hourly rejection reason of `checkRateLimit`
(`Hourly rate limit exceeded. Maximum ${rateLimitConfig.maxEmailsPerHour} emails per hour.`). -/
def hourlyLimitMessage : String :=
  "Hourly rate limit exceeded. Maximum " ++ toString rateLimitConfig.maxEmailsPerHour
    ++ " emails per hour."

/-- The daily rejection reason of `checkRateLimit`
(`Daily rate limit exceeded. Maximum ${rateLimitConfig.maxEmailsPerDay} emails per day.`). -/
def dailyLimitMessage : String :=
  "Daily rate limit exceeded. Maximum " ++ toString rateLimitConfig.maxEmailsPerDay
    ++ " emails per day."

/-- The result type of `checkRateLimit`: `{ allowed: boolean; reason?: string }`. -/
structure RateLimitResult where
  allowed : Bool
  reason : Option String
deriving Repr, DecidableEq

/-- `index.ts` `checkRateLimit`: counts the identity's audit rows (of any
status) with `created_at ≥ now - 1h`; at or above `maxEmailsPerHour` the
request is rejected with the hourly reason; otherwise the same over 24 hours
against `maxEmailsPerDay`; otherwise allowed.  `now` is `new Date()` taken at
the start of the call; the database query errors are not modelled (the source
rethrows them). -/
def checkRateLimit (log : List AuditRecord) (userId : String) (now : Int) :
    RateLimitResult :=
  if countSince log userId (now - 3600000) ≥ rateLimitConfig.maxEmailsPerHour then
    { allowed := false, reason := some hourlyLimitMessage }
  else if countSince log userId (now - 86400000) ≥ rateLimitConfig.maxEmailsPerDay then
    { allowed := false, reason := some dailyLimitMessage }
  else
    { allowed := true, reason := none }

/-- The row built by the `logEmail` insert: `template` and `error_message` go
through `x || null`, `created_at` is the insertion instant. -/
def mkLogRecord (userId : String) (emailData : EmailRequest) (status : EmailStatus)
    (error : Option String) (now : Int) : AuditRecord :=
  { user_id := userId
  , recipient := emailData.«to»
  , subject := emailData.subject
  , template := jsOrNull emailData.template
  , status := status
  , error_message := jsOrNull error
  , created_at := now }

/-- `index.ts` `logEmail`: inserts one row into `email_logs`.  The supabase
insert reports failure by value (`logError`); the source only
`console.error`s it, so a failed insert leaves the log unchanged and nothing
is thrown.  `appendOk` says whether the underlying write succeeds. -/
def logEmail (appendOk : Bool) (log : List AuditRecord) (userId : String)
    (emailData : EmailRequest) (status : EmailStatus) (error : Option String)
    (now : Int) : List AuditRecord :=
  if appendOk then
    log ++ [mkLogRecord userId emailData status error now]
  else
    log

/-- Outcome of the POST to `https://api.resend.com/emails`: `ok` is a 2xx
response, `fail` a non-2xx status with its error body. -/
inductive ProviderResult
  | ok
  | fail (status : Nat) (body : String)
deriving Repr, DecidableEq

/-- Result of `sendEmail`: the thrown-or-returned outcome, plus whether the
provider `fetch` was reached (no throw happened before it). -/
structure SendOutcome where
  result : Except String Unit
  fetched : Bool

/-- The tail of `sendEmail` after content resolution: throws
`Either html, text, or template must be provided` when both contents are
falsy, otherwise performs the provider call and throws
`Email service error: <status> - <body>` on a non-2xx response. -/
def deliverContent (provider : ProviderResult) (htmlContent textContent : Option String) :
    SendOutcome :=
  if !jsTruthy htmlContent && !jsTruthy textContent then
    { result := Except.error "Either html, text, or template must be provided"
    , fetched := false }
  else
    match provider with
    | ProviderResult.ok => { result := Except.ok (), fetched := true }
    | ProviderResult.fail status body =>
      { result := Except.error ("Email service error: " ++ toString status ++ " - " ++ body)
      , fetched := true }

/-- `index.ts` `sendEmail`: throws if `RESEND_API_KEY` is unset; if a template
is (truthily) present, renders it — `renderTemplate`'s throw propagates — and
replaces the raw contents with the rendered pair; then delivers. -/
def sendEmail (apiKey : Option String) (provider : ProviderResult)
    (emailData : EmailRequest) : SendOutcome :=
  match apiKey with
  | none => { result := Except.error "RESEND_API_KEY is not configured", fetched := false }
  | some _ =>
    if jsTruthy emailData.template then
      match renderTemplate (jsStr emailData.template) emailData.data with
      | Except.error msg => { result := Except.error msg, fetched := false }
      | Except.ok rendered => deliverContent provider (some rendered.html) (some rendered.text)
    else
      deliverContent provider emailData.html emailData.text

/-- The HTTP response produced by the `serve` handler for one dispatch:
200 success, 400 for the missing-fields validation, 429 for a rate-limit
rejection (body `{ error: reason }`), 500 from the outer catch-all. -/
inductive ServeResponse
  | success (message : String)
  | badRequest (message : String)
  | rateLimited (reason : Option String)
  | serverError (message : String)
deriving Repr, DecidableEq

/-- One dispatch seen from the outside: the HTTP response, the `email_logs`
state after the call, and whether the provider was contacted. -/
structure DispatchOutcome where
  response : ServeResponse
  log : List AuditRecord
  fetched : Bool
deriving Repr

/-- The request handler inside `serve` (`index.ts`), after authentication has
resolved `userId` and the body has parsed: (1) reject with 400 when `to` or
`subject` is falsy, writing nothing; (2) consult `checkRateLimit` and on
rejection log a `failed` row carrying the reason and answer 429; (3) call
`sendEmail` — on success log a `sent` row and answer 200, and on a thrown
error log a `failed` row carrying the message and let the outer catch answer
500 with that message. -/
def handleRequest (apiKey : Option String) (provider : ProviderResult) (appendOk : Bool)
    (userId : String) (emailData : EmailRequest) (log : List AuditRecord) (now : Int) :
    DispatchOutcome :=
  if !strTruthy emailData.«to» || !strTruthy emailData.subject then
    { response := ServeResponse.badRequest "Missing required fields: to, subject"
    , log := log, fetched := false }
  else if !(checkRateLimit log userId now).allowed then
    { response := ServeResponse.rateLimited (checkRateLimit log userId now).reason
    , log := logEmail appendOk log userId emailData EmailStatus.failed
        (checkRateLimit log userId now).reason now
    , fetched := false }
  else
    match (sendEmail apiKey provider emailData).result with
    | Except.ok _ =>
      { response := ServeResponse.success "Email sent successfully"
      , log := logEmail appendOk log userId emailData EmailStatus.sent none now
      , fetched := (sendEmail apiKey provider emailData).fetched }
    | Except.error msg =>
      { response := ServeResponse.serverError msg
      , log := logEmail appendOk log userId emailData EmailStatus.failed (some msg) now
      , fetched := (sendEmail apiKey provider emailData).fetched }

/-- `utils.ts` `isValidEmail`, character-exact model of the regular expression
test `/^[^\s@]+@[^\s@]+\.[^\s@]+$/.test(email)`: a non-empty whitespace-free
run without `@`, one `@`, and a domain without whitespace or `@` containing a
dot with at least one character on each side (JS `\s` is modelled by
`Char.isWhitespace`). -/
def isValidEmail (email : String) : Bool :=
  match splitAtFirstAt email.toList with
  | none => false
  | some (l, d) =>
    !l.isEmpty && !d.isEmpty
      && l.all (fun c => !c.isWhitespace)
      && d.all (fun c => !c.isWhitespace && c != '@')
      && ((d.drop 1).dropLast.contains '.')
where
  /-- Split a character list at its first `@`, if any. -/
  splitAtFirstAt : List Char → Option (List Char × List Char)
    | [] => none
    | c :: cs =>
      if c = '@' then some ([], cs)
      else
        match splitAtFirstAt cs with
        | none => none
        | some (l, r) => some (c :: l, r)

/-- `utils.ts` `sanitizeEmailData`'s per-string HTML entity encoding: the five
sequential global single-character replaces
(`& → &amp;`, `< → &lt;`, `> → &gt;`, `" → &quot;`, `' → &#x27;`) are equal to
this single character-wise pass, because `&` is replaced first and no later
pass touches the replacement texts. -/
def escapeHtml (value : String) : String :=
  String.join (value.toList.map fun c =>
    if c = '&' then "&amp;"
    else if c = '<' then "&lt;"
    else if c = '>' then "&gt;"
    else if c = '"' then "&quot;"
    else if c = '\x27' then "&#x27;"
    else String.singleton c)

/-- `utils.ts` `sanitizeEmailData`: encodes every string value of the bag
(the embedding's bags hold only string values). -/
def sanitizeEmailData (data : DataBag) : DataBag :=
  data.map (fun kv => (kv.1, escapeHtml kv.2))

/-- The stats object returned by `EmailNotificationClient.getStats`. -/
structure EmailStats where
  sentToday : Nat
  sentThisHour : Nat
  failedToday : Nat
  totalSent : Nat
deriving Repr, DecidableEq

/-- `api/notifications/index.ts` `EmailNotificationClient.getStats`: four
head-count queries over the caller's own `email_logs` rows (row-level security
scopes the table to the current user, so `log` is that user's rows).
`startOfToday` models `new Date(now.getFullYear(), now.getMonth(),
now.getDate())` — midnight of the local calendar day containing `now` — and
the hourly figure uses the sliding `now - 1h`.  Only rows with
`status = 'sent'` count toward `sentToday`/`sentThisHour`/`totalSent`. -/
def getStats (log : List AuditRecord) (now startOfToday : Int) : EmailStats :=
  { sentToday :=
      (log.filter (fun r => r.status == EmailStatus.sent && startOfToday ≤ r.created_at)).length
  , sentThisHour :=
      (log.filter (fun r => r.status == EmailStatus.sent && now - 3600000 ≤ r.created_at)).length
  , failedToday :=
      (log.filter (fun r => r.status == EmailStatus.failed && startOfToday ≤ r.created_at)).length
  , totalSent := (log.filter (fun r => r.status == EmailStatus.sent)).length }

/-- `api/notifications/index.ts`: `EmailNotificationClient.RATE_LIMITS`
(same field shape as the server's `rateLimitConfig`). -/
def RATE_LIMITS : RateLimitConfig :=
  { maxEmailsPerHour := 10, maxEmailsPerDay := 50 }

/-- The result of `calculateRemainingEmails`. -/
structure RemainingEmails where
  remainingThisHour : Int
  remainingToday : Int
  canSend : Bool
deriving Repr, DecidableEq

/-- `utils.ts` `calculateRemainingEmails`: JS number subtraction of the sent
counts from the limits; `canSend` uses the unclamped differences. -/
def calculateRemainingEmails (stats : EmailStats) (limits : RateLimitConfig) :
    RemainingEmails :=
  { remainingThisHour := max 0 ((limits.maxEmailsPerHour : Int) - stats.sentThisHour)
  , remainingToday := max 0 ((limits.maxEmailsPerDay : Int) - stats.sentToday)
  , canSend :=
      decide ((limits.maxEmailsPerHour : Int) - stats.sentThisHour > 0)
        && decide ((limits.maxEmailsPerDay : Int) - stats.sentToday > 0) }

/-- `renderTemplate t []` succeeds with non-empty HTML and non-empty text. -/
def renderedNonEmptyOnEmptyBag (t : String) : Bool :=
  match renderTemplate t [] with
  | Except.ok r => !r.html.isEmpty && !r.text.isEmpty
  | Except.error _ => false

/-- Concrete request with an unregistered template identifier (scenario C). -/
def bogusTemplateRequest : EmailRequest :=
  { «to» := "user@example.com", subject := "Test", template := some "bogus", data := [],
    html := none, text := none }

/-- Concrete request with no template and no raw content (scenario D). -/
def emptyContentRequest : EmailRequest :=
  { «to» := "user@example.com", subject := "Hello", template := none, data := [],
    html := none, text := none }

/-- Concrete request with raw HTML content and a well-formed recipient. -/
def c4Request : EmailRequest :=
  { «to» := "user@example.com", subject := "Hello", template := none, data := [],
    html := some "<p>hi</p>", text := none }

/-- One audit row of identity u1 inside the hourly window of `now = 7200000`. -/
def c4HourlyRecord : AuditRecord :=
  { user_id := "u1", recipient := "user@example.com", subject := "Hello", template := none,
    status := EmailStatus.sent, error_message := none, created_at := 7000000 }

/-- Ten audit rows in the last hour: the hourly quota is exhausted. -/
def c4HourlyLog : List AuditRecord := List.replicate 10 c4HourlyRecord

/-- An audit row of identity u1 at instant `t` with status `st`. -/
def c5Record (t : Int) (st : EmailStatus) : AuditRecord :=
  { user_id := "u1", recipient := "r@example.com", subject := "s", template := none,
    status := st, error_message := none, created_at := t }

/-- Ten failed rows in the hourly window of `now = 7200000`. -/
def c5HourlyLog : List AuditRecord := List.replicate 10 (c5Record 7000000 EmailStatus.failed)

/-- Fifty failed rows outside the hourly but inside the daily window of
`now = 172800000`. -/
def c5DailyLog : List AuditRecord := List.replicate 50 (c5Record 100000000 EmailStatus.failed)

/-- An audit row of identity u1 timestamped exactly at `now - 1h` for
`now = 3600000`. -/
def boundaryRecord : AuditRecord :=
  { user_id := "u1", recipient := "r@example.com", subject := "s", template := none,
    status := EmailStatus.sent, error_message := none, created_at := 0 }

/-- Concrete request whose recipient fails `isValidEmail`. -/
def malformedAddressRequest : EmailRequest :=
  { «to» := "not-an-email", subject := "Test", template := none, data := [],
    html := some "<p>hi</p>", text := none }

/-- Ten failed rows of identity u1 one second before `now = 86400000`. -/
def c10Log : List AuditRecord :=
  List.replicate 10
    { user_id := "u1", recipient := "r@example.com", subject := "s", template := none,
      status := EmailStatus.failed,
      error_message := some "Email service error: 500 - boom", created_at := 86399000 }

/-- C1: the claim says every string value interpolated into rendered HTML has
`& < > " '` escaped, so that none appears unescaped in the output of render.
The code violates this: the templates interpolate the data bag raw, and the
repository's own sanitizer (`sanitizeEmailData`, written to encode exactly
those five characters "to prevent injection") is never invoked on the path.
A task name containing markup therefore reaches the HTML verbatim, while the
unused `escapeHtml` pass would have removed every reserved character. -/
theorem render_embeds_reserved_characters_unescaped :
    containsStr (taskReminderTemplate [("taskName", "<script>alert(1)</script>")]).html
      "<script>alert(1)</script>" = true ∧
    escapeHtml "&<>\"\x27" = "&amp;&lt;&gt;&quot;&#x27;" ∧
    containsStr (escapeHtml "<script>alert(1)</script>") "<script>" = false ∧
    sanitizeEmailData [("taskName", "<b>")] = [("taskName", "&lt;b&gt;")] := by
  decide

/-- C2 (counterexample): dispatching a request whose templateId is the
unregistered "bogus" appends one audit record (not zero) and answers with the
catch-all 500 server error, not a validation response. -/
theorem unknown_template_appends_failed_record_counterexample :
    (handleRequest (some "key") ProviderResult.ok true "u1" bogusTemplateRequest [] 0).log.length
      = 1 ∧
    (handleRequest (some "key") ProviderResult.ok true "u1" bogusTemplateRequest [] 0).response
      = ServeResponse.serverError "Template \x27bogus\x27 not found" := by
  decide

/-- C2 (amended): for every validated, rate-admitted dispatch whose templateId
is present, non-empty and not one of the five registered identifiers, the
handler answers a 500 server error carrying the `Template '<id>' not found`
message, exactly one Failed audit record carrying that message is appended
(when the audit insert succeeds), and the provider is never contacted. -/
theorem unknown_template_yields_server_error_and_failed_record
    (k : String) (provider : ProviderResult) (userId t : String)
    (e : EmailRequest) (log : List AuditRecord) (now : Int)
    (hto : strTruthy e.«to» = true) (hsubj : strTruthy e.subject = true)
    (hallow : (checkRateLimit log userId now).allowed = true)
    (htpl : e.template = some t) (htne : t.isEmpty = false)
    (h1 : t ≠ "task-reminder") (h2 : t ≠ "task-assigned") (h3 : t ≠ "task-completed")
    (h4 : t ≠ "welcome") (h5 : t ≠ "password-reset") :
    handleRequest (some k) provider true userId e log now =
      { response := ServeResponse.serverError ("Template \x27" ++ t ++ "\x27 not found")
      , log := log ++ [mkLogRecord userId e EmailStatus.failed
          (some ("Template \x27" ++ t ++ "\x27 not found")) now]
      , fetched := false } := by
  have hsend : sendEmail (some k) provider e =
      { result := Except.error ("Template \x27" ++ t ++ "\x27 not found"), fetched := false } := by
    simp [sendEmail, htpl, jsTruthy, htne, jsStr, renderTemplate, templateFor,
      h1, h2, h3, h4, h5]
  simp [handleRequest, hto, hsubj, hallow, hsend, logEmail]

/-- C2 (witness): the amended theorem at the concrete "bogus" request. -/
theorem unknown_template_yields_server_error_and_failed_record_witness :
    handleRequest (some "key") ProviderResult.ok true "u1" bogusTemplateRequest [] 0 =
      { response := ServeResponse.serverError ("Template \x27" ++ "bogus" ++ "\x27 not found")
      , log := [] ++ [mkLogRecord "u1" bogusTemplateRequest EmailStatus.failed
          (some ("Template \x27" ++ "bogus" ++ "\x27 not found")) 0]
      , fetched := false } :=
  unknown_template_yields_server_error_and_failed_record "key" ProviderResult.ok "u1" "bogus"
    bogusTemplateRequest [] 0 (by decide) (by decide) (by decide) rfl (by decide)
    (by decide) (by decide) (by decide) (by decide) (by decide)

/-- C3 (counterexample): dispatching a validated request with no template and
no raw content appends one audit record (not zero) and answers with the
catch-all 500 server error, not a validation response. -/
theorem empty_content_appends_failed_record_counterexample :
    (handleRequest (some "key") ProviderResult.ok true "u1" emptyContentRequest [] 0).log.length
      = 1 ∧
    (handleRequest (some "key") ProviderResult.ok true "u1" emptyContentRequest [] 0).response
      = ServeResponse.serverError "Either html, text, or template must be provided" := by
  decide

/-- C3 (amended): for every validated, rate-admitted dispatch whose content
resolves to empty (no truthy templateId and neither rawHtml nor rawText
truthy), the handler answers a 500 server error carrying
`Either html, text, or template must be provided`, one Failed audit record
carrying that message is appended (when the audit insert succeeds), and the
provider is never contacted. -/
theorem empty_content_yields_server_error_and_failed_record
    (k : String) (provider : ProviderResult) (userId : String)
    (e : EmailRequest) (log : List AuditRecord) (now : Int)
    (hto : strTruthy e.«to» = true) (hsubj : strTruthy e.subject = true)
    (hallow : (checkRateLimit log userId now).allowed = true)
    (htpl : jsTruthy e.template = false)
    (hhtml : jsTruthy e.html = false) (htext : jsTruthy e.text = false) :
    handleRequest (some k) provider true userId e log now =
      { response := ServeResponse.serverError "Either html, text, or template must be provided"
      , log := log ++ [mkLogRecord userId e EmailStatus.failed
          (some "Either html, text, or template must be provided") now]
      , fetched := false } := by
  have hsend : sendEmail (some k) provider e =
      { result := Except.error "Either html, text, or template must be provided"
      , fetched := false } := by
    simp [sendEmail, htpl, deliverContent, hhtml, htext]
  simp [handleRequest, hto, hsubj, hallow, hsend, logEmail]

/-- C3 (witness): the amended theorem at the concrete empty-content request. -/
theorem empty_content_yields_server_error_and_failed_record_witness :
    handleRequest (some "key") ProviderResult.ok true "u1" emptyContentRequest [] 0 =
      { response := ServeResponse.serverError "Either html, text, or template must be provided"
      , log := [] ++ [mkLogRecord "u1" emptyContentRequest EmailStatus.failed
          (some "Either html, text, or template must be provided") 0]
      , fetched := false } :=
  empty_content_yields_server_error_and_failed_record "key" ProviderResult.ok "u1"
    emptyContentRequest [] 0 (by decide) (by decide) (by decide) (by decide) (by decide)
    (by decide)

/-- C4: every validated dispatch rejected by the rate limiter appends exactly
one Failed audit record whose failureReason is the rejection reason, answers
429 carrying that reason, never contacts the provider, and the reason is the
hourly or the daily message, which are distinct. -/
theorem rate_limited_dispatch_logs_failed_and_rejects
    (apiKey : Option String) (provider : ProviderResult) (userId : String)
    (e : EmailRequest) (log : List AuditRecord) (now : Int) (reason : String)
    (hto : strTruthy e.«to» = true) (hsubj : strTruthy e.subject = true)
    (hcheck : checkRateLimit log userId now = { allowed := false, reason := some reason }) :
    (handleRequest apiKey provider true userId e log now =
      { response := ServeResponse.rateLimited (some reason)
      , log := log ++ [mkLogRecord userId e EmailStatus.failed (some reason) now]
      , fetched := false }) ∧
    (reason = hourlyLimitMessage ∨ reason = dailyLimitMessage) ∧
    hourlyLimitMessage ≠ dailyLimitMessage := by
  refine ⟨?_, ?_, by decide⟩
  · simp [handleRequest, hto, hsubj, hcheck, logEmail]
  · unfold checkRateLimit at hcheck
    split at hcheck
    · simp only [RateLimitResult.mk.injEq, Option.some.injEq] at hcheck
      exact Or.inl hcheck.2.symm
    · split at hcheck
      · simp only [RateLimitResult.mk.injEq, Option.some.injEq] at hcheck
        exact Or.inr hcheck.2.symm
      · simp at hcheck

/-- C4 (witness): an identity with ten audit rows in the last hour is rejected
with the hourly reason, one more Failed record is appended, and no delivery is
attempted. -/
theorem rate_limited_dispatch_logs_failed_and_rejects_witness :
    (handleRequest (some "key") ProviderResult.ok true "u1" c4Request c4HourlyLog 7200000 =
      { response := ServeResponse.rateLimited (some hourlyLimitMessage)
      , log := c4HourlyLog ++ [mkLogRecord "u1" c4Request EmailStatus.failed
          (some hourlyLimitMessage) 7200000]
      , fetched := false }) ∧
    (hourlyLimitMessage = hourlyLimitMessage ∨ hourlyLimitMessage = dailyLimitMessage) ∧
    hourlyLimitMessage ≠ dailyLimitMessage :=
  rate_limited_dispatch_logs_failed_and_rejects (some "key") ProviderResult.ok "u1" c4Request
    c4HourlyLog 7200000 hourlyLimitMessage (by decide) (by decide) (by decide)

/-- C5: `checkRateLimit` implements the admission algorithm of the spec: the
count it uses is exactly the count of the identity's Sent-or-Failed records
with timestamp ≥ since; at or above `maxPerHour` in the last hour it rejects
with the hourly reason regardless of the daily count; below that but at or
above `maxPerDay` in the last 24 hours it rejects with the daily reason;
otherwise it admits. -/
theorem checkRateLimit_implements_admission_algorithm
    (log : List AuditRecord) (userId : String) (now : Int) :
    (∀ since : Int, countSince log userId since =
      (log.filter (fun r => r.user_id == userId && since ≤ r.created_at
        && (r.status == EmailStatus.sent || r.status == EmailStatus.failed))).length) ∧
    (countSince log userId (now - 3600000) ≥ rateLimitConfig.maxEmailsPerHour →
      checkRateLimit log userId now = { allowed := false, reason := some hourlyLimitMessage }) ∧
    (countSince log userId (now - 3600000) < rateLimitConfig.maxEmailsPerHour →
      countSince log userId (now - 86400000) ≥ rateLimitConfig.maxEmailsPerDay →
      checkRateLimit log userId now = { allowed := false, reason := some dailyLimitMessage }) ∧
    (countSince log userId (now - 3600000) < rateLimitConfig.maxEmailsPerHour →
      countSince log userId (now - 86400000) < rateLimitConfig.maxEmailsPerDay →
      checkRateLimit log userId now = { allowed := true, reason := none }) := by
  refine ⟨?_, ?_, ?_, ?_⟩
  · intro since
    unfold countSince
    congr 1
    apply List.filter_congr
    intro r _
    cases h : r.status <;> simp [h, Bool.and_assoc]
  · intro h
    unfold checkRateLimit
    rw [if_pos h]
  · intro h1 h2
    unfold checkRateLimit
    rw [if_neg (Nat.not_le.mpr h1), if_pos h2]
  · intro h1 h2
    unfold checkRateLimit
    rw [if_neg (Nat.not_le.mpr h1), if_neg (Nat.not_le.mpr h2)]

/-- C5 (witness): the three admission outcomes at concrete audit logs. -/
theorem checkRateLimit_implements_admission_algorithm_witness :
    checkRateLimit c5HourlyLog "u1" 7200000
      = { allowed := false, reason := some hourlyLimitMessage } ∧
    checkRateLimit c5DailyLog "u1" 172800000
      = { allowed := false, reason := some dailyLimitMessage } ∧
    checkRateLimit [] "u1" 7200000 = { allowed := true, reason := none } :=
  ⟨(checkRateLimit_implements_admission_algorithm c5HourlyLog "u1" 7200000).2.1 (by decide),
   (checkRateLimit_implements_admission_algorithm c5DailyLog "u1" 172800000).2.2.1
     (by decide) (by decide),
   (checkRateLimit_implements_admission_algorithm [] "u1" 7200000).2.2.2
     (by decide) (by decide)⟩

/-- C6 (counterexample): a record timestamped exactly at `now - 1h` is NOT
excluded from the hourly window: it is counted, and ten such records are
enough to trigger the hourly rejection. -/
theorem hourly_boundary_record_excluded_counterexample :
    countSince [boundaryRecord] "u1" ((3600000 : Int) - 3600000) = 1 ∧
    (checkRateLimit (List.replicate 10 boundaryRecord) "u1" 3600000).allowed = false := by
  decide

/-- C6 (amended): a record timestamped exactly at `now - 1h` is included in
the hourly window — the query keeps rows with `created_at ≥ now - 1h`, a
window closed at its lower bound — so such a record contributes one to the
hourly count. -/
theorem hourly_boundary_record_is_counted
    (log : List AuditRecord) (r : AuditRecord) (userId : String) (now : Int)
    (hu : r.user_id = userId) (ht : r.created_at = now - 3600000) :
    countSince (r :: log) userId (now - 3600000) =
      countSince log userId (now - 3600000) + 1 := by
  simp [countSince, List.filter_cons, hu, ht]

/-- C6 (witness): the amended theorem at the concrete boundary record. -/
theorem hourly_boundary_record_is_counted_witness :
    countSince [boundaryRecord] "u1" ((3600000 : Int) - 3600000) =
      countSince [] "u1" ((3600000 : Int) - 3600000) + 1 :=
  hourly_boundary_record_is_counted [] boundaryRecord "u1" 3600000 (by decide) (by decide)

/-- C7 (counterexample): on an empty data bag the task-reminder template emits
the literal string "undefined" into both the HTML and the text output instead
of omitting the missing field's fragment. -/
theorem empty_bag_emits_undefined_counterexample :
    containsStr (taskReminderTemplate []).html "undefined" = true ∧
    containsStr (taskReminderTemplate []).text "undefined" = true := by
  decide

/-- C7 (amended): for every registered template, render never throws (on any
data bag, hence on the empty one) and produces non-empty HTML and non-empty
text on the empty bag; truthiness-guarded optional fields are omitted when
missing (e.g. the Due Date fragment) and welcome/password-reset fall back to
defaults without "undefined"; but the unconditionally interpolated fields of
the task templates render as the literal "undefined" when missing. -/
theorem render_empty_bag_amended :
    (∀ d : DataBag, renderTemplate "task-reminder" d = Except.ok (taskReminderTemplate d)) ∧
    (∀ d : DataBag, renderTemplate "task-assigned" d = Except.ok (taskAssignedTemplate d)) ∧
    (∀ d : DataBag, renderTemplate "task-completed" d = Except.ok (taskCompletedTemplate d)) ∧
    (∀ d : DataBag, renderTemplate "welcome" d = Except.ok (welcomeTemplate d)) ∧
    (∀ d : DataBag, renderTemplate "password-reset" d = Except.ok (passwordResetTemplate d)) ∧
    registeredTemplates.all renderedNonEmptyOnEmptyBag = true ∧
    containsStr (taskReminderTemplate []).html "Due Date:" = false ∧
    containsStr (taskReminderTemplate [("dueDate", "2025-10-30")]).html "Due Date:" = true ∧
    containsStr (welcomeTemplate []).html "undefined" = false ∧
    containsStr (welcomeTemplate []).text "undefined" = false ∧
    containsStr (passwordResetTemplate []).html "undefined" = false ∧
    containsStr (taskReminderTemplate []).html "undefined" = true :=
  ⟨fun _ => rfl, fun _ => rfl, fun _ => rfl, fun _ => rfl, fun _ => rfl, by decide⟩

/-- C8: the claim says a dispatch whose recipient is not well-formed address
syntax gets a ValidationError before the rate limiter and leaves no audit
record.  The code only rejects empty `to`/`subject`: the recipient
"not-an-email" fails the repository's own `isValidEmail` (which is never
called on the dispatch path), yet the dispatch passes validation, consumes
rate-limit quota, reaches the provider, succeeds, and appends a Sent audit
record. -/
theorem malformed_address_reaches_limiter_and_provider :
    isValidEmail "not-an-email" = false ∧
    (handleRequest (some "key") ProviderResult.ok true "u1" malformedAddressRequest [] 0).response
      = ServeResponse.success "Email sent successfully" ∧
    (handleRequest (some "key") ProviderResult.ok true "u1" malformedAddressRequest [] 0).fetched
      = true ∧
    (handleRequest (some "key") ProviderResult.ok true "u1" malformedAddressRequest [] 0).log.length
      = 1 := by
  decide

/-- C9: a failure of the audit-log append is invisible to the caller: the
HTTP response and whether delivery was attempted are identical whether the
`email_logs` insert succeeds or fails, for every request, provider outcome,
key configuration and history (`logEmail` itself swallows the insert error
and throws nothing). -/
theorem audit_write_failure_never_changes_response
    (apiKey : Option String) (provider : ProviderResult) (userId : String)
    (e : EmailRequest) (log : List AuditRecord) (now : Int) :
    (handleRequest apiKey provider false userId e log now).response =
      (handleRequest apiKey provider true userId e log now).response ∧
    (handleRequest apiKey provider false userId e log now).fetched =
      (handleRequest apiKey provider true userId e log now).fetched := by
  unfold handleRequest
  refine ⟨?_, ?_⟩ <;>
  · split
    · rfl
    · split
      · rfl
      · split <;> rfl

/-- C10: the client-side quota pre-check is not equivalent to the server-side
admission check: with ten Failed records in the last hour, `getStats` (which
counts only status-'sent' rows, with the daily figure anchored at local
midnight) yields `canSend = true` via `calculateRemainingEmails`, while the
server's `checkRateLimit` (which counts rows of every status over sliding
windows) rejects the same identity at the same instant. -/
theorem client_precheck_weaker_than_server_check :
    (calculateRemainingEmails (getStats c10Log 86400000 43200000) RATE_LIMITS).canSend = true ∧
    (checkRateLimit c10Log "u1" 86400000).allowed = false := by
  decide
